import Mathlib

/-!
# Verification of the healthcare-dashboard app (`src/app.py`)

Shallow embedding of the single-file Dash application: the loaded table is a
list of rows, each callback becomes a pure Lean function from the table and
the current control values to a chart specification (`Fig`).  Pandas/plotly
behaviour relevant to the claims is embedded explicitly:

* `pd.to_numeric(..., errors='coerce')` / `pd.to_datetime(..., errors='coerce')`
  are external library coercions; `load_data` is parameterised over them as
  total functions returning `Option` (a coercion either yields a value or the
  missing marker `none`, never an exception).
* a missing (`NaN`) `Billing Amount` compares false under `<=` (pandas
  semantics), so the slider filter drops such rows;
* `px.histogram` drops missing values of the x column, so the chart data of a
  histogram is the list of *present* values of that column;
* `groupby('YearMonth').size()` drops the missing group (pandas
  `dropna=True` default) and returns groups with sorted keys.

Python truthiness of a Dash dropdown value (`None` or a string) is embedded
by `pyTruthy`: `None` and the empty string are falsy, everything else truthy.
-/

namespace HealthcareDashboard

/-- A calendar date, as produced by the (external) datetime coercion. -/
structure Date where
  year : Nat
  month : Nat
  day : Nat
deriving DecidableEq, Repr

/-- One row of the loaded table, after the coercions of `load_data`.
`billing` is `Billing Amount` (missing = `none`), `admission` is
`Date of Admission`, `yearMonth` the derived `YearMonth` column. -/
structure Row where
  age : Int
  gender : String
  condition : String
  insurance : String
  billing : Option Rat
  admission : Option Date
  yearMonth : Option (Nat × Nat)
deriving DecidableEq, Repr

/-- One raw CSV row before the two coercions: `Billing Amount` and
`Date of Admission` are still the source text. -/
structure RawRow where
  age : Int
  gender : String
  condition : String
  insurance : String
  billingText : String
  dateText : String
deriving DecidableEq, Repr

/-- `YearMonth` of a date: the `(year, month)` bucket (`.dt.to_period('M')`). -/
def toYearMonth (d : Date) : Nat × Nat := (d.year, d.month)

/-- `load_data` (src/app.py:10-15): coerce `Billing Amount` and
`Date of Admission` with the external `errors='coerce'` coercions
(`parseNum`, `parseDate`: total functions into `Option`), and derive the
`YearMonth` column from the coerced date. -/
def load_data (parseNum : String → Option Rat) (parseDate : String → Option Date)
    (raw : List RawRow) : List Row :=
  raw.map (fun r =>
    let b := parseNum r.billingText
    let d := parseDate r.dateText
    { age := r.age, gender := r.gender, condition := r.condition,
      insurance := r.insurance, billing := b, admission := d,
      yearMonth := d.map toYearMonth })

/-- `num_records = len(data)` (src/app.py:19). -/
def num_records (t : List Row) : Nat := t.length

/-- `avg_billing_amount = data['Billing Amount'].mean()` (src/app.py:20):
pandas `mean` averages the present values and returns `NaN` (here `none`,
the `DataUnavailable` outcome) when every value is missing. -/
def avg_billing_amount (t : List Row) : Option Rat :=
  let xs := t.filterMap Row.billing
  if xs.isEmpty then none else some (xs.sum / (xs.length : Rat))

/-- Python truthiness of a Dash dropdown value: `None` and `''` are falsy. -/
def pyTruthy : Option String → Bool
  | none => false
  | some s => !s.isEmpty

/-- `data[data['Gender'] == selected_gender] if selected_gender else data`:
the gender filter shared by four callbacks. -/
def filterGender (sel : Option String) (t : List Row) : List Row :=
  if pyTruthy sel then t.filter (fun r => r.gender == sel.getD "") else t

/-- `data[data['Medical Condition'] == selected_condition] if selected_condition else data`. -/
def filterCondition (sel : Option String) (t : List Row) : List Row :=
  if pyTruthy sel then t.filter (fun r => r.condition == sel.getD "") else t

/-- `filtered_df['Billing Amount'] <= slider_value` for one row: a missing
value (`NaN`) compares false in pandas. -/
def billingLe (v : Rat) (r : Row) : Bool :=
  match r.billing with
  | some b => decide (b ≤ v)
  | none => false

/-- `filtered_df[filtered_df['Billing Amount'] <= slider_value]` (src/app.py:194). -/
def filterBillingLe (v : Rat) (t : List Row) : List Row :=
  t.filter (billingLe v)

/-- A chart specification: what a callback hands back to Dash.  `empty` is
the bare `{}` figure; the other constructors carry the chart data that
plotly express receives. -/
inductive Fig where
  | empty : Fig
  | histogram (x : String) (xs : List Rat) (nbins : Nat)
      (color : Option (List String)) (title : String) : Fig
  | pie (names : List String) (title : String) : Fig
  | groupedBar (x : List String) (y : List (Option Rat)) (color : List String)
      (title : String) : Fig
  | line (x : List String) (y : List Nat) (title : String) : Fig
  | bar (x : List String) (y : List Nat) (title : String) : Fig
deriving DecidableEq, Repr

/-- `update_distribution` (src/app.py:141-159): gender filter, explicit `{}`
on an empty filtered frame, else a 10-bin histogram of `Age` coloured by
`Gender`. -/
def update_distribution (selected_gender : Option String) (t : List Row) : Fig :=
  let filtered_df := filterGender selected_gender t
  if filtered_df.isEmpty then Fig.empty
  else
    Fig.histogram "Age" (filtered_df.map (fun r => (r.age : Rat))) 10
      (some (filtered_df.map Row.gender)) "Age Distribution by Gender"

/-- `update_medical_condition` (src/app.py:166-169): gender filter, pie chart
over `Medical Condition`. -/
def update_medical_condition (selected_gender : Option String) (t : List Row) : Fig :=
  let filtered_df := filterGender selected_gender t
  Fig.pie (filtered_df.map Row.condition) "Medical Condition Distribution"

/-- `update_insurance` (src/app.py:176-184): gender filter, grouped bar chart
of `Billing Amount` by `Insurance Provider`, coloured by `Medical Condition`. -/
def update_insurance (selected_gender : Option String) (t : List Row) : Fig :=
  let filtered_df := filterGender selected_gender t
  Fig.groupedBar (filtered_df.map Row.insurance) (filtered_df.map Row.billing)
    (filtered_df.map Row.condition) "Insurance Provider Price Comparison"

/-- `update_billing` (src/app.py:192-196): gender filter, then the slider
threshold filter, then a 10-bin histogram of `Billing Amount` (no empty-frame
check). -/
def update_billing (selected_gender : Option String) (slider_value : Rat)
    (t : List Row) : Fig :=
  let filtered_df := filterGender selected_gender t
  let filtered_df := filterBillingLe slider_value filtered_df
  Fig.histogram "Billing Amount" (filtered_df.filterMap Row.billing) 10 none
    "Billing Amount Distribution"

/-- Chronological order on `YearMonth` buckets: earlier year, or same year
and month no later.  This is the key order of a pandas `groupby` over a
monthly `Period` column. -/
def ymr (a b : Nat × Nat) : Prop :=
  a.1 < b.1 ∨ (a.1 = b.1 ∧ a.2 ≤ b.2)

instance : DecidableRel ymr := fun a b => by
  unfold ymr; infer_instance

instance : IsTotal (Nat × Nat) ymr :=
  ⟨fun a b => by unfold ymr; omega⟩

instance : IsTrans (Nat × Nat) ymr :=
  ⟨fun a b c hab hbc => by unfold ymr at *; omega⟩

/-- The list of present `YearMonth` values of a table (missing dropped). -/
def ymList (t : List Row) : List (Nat × Nat) :=
  t.filterMap Row.yearMonth

/-- The group keys of `groupby('YearMonth')`: the distinct present
`YearMonth` values, sorted chronologically (missing group dropped). -/
def ymKeys (t : List Row) : List (Nat × Nat) :=
  List.insertionSort ymr (ymList t).dedup

/-- The size of one `groupby('YearMonth')` group: how many rows fall in the
bucket `k`. -/
def ymCount (t : List Row) (k : Nat × Nat) : Nat :=
  (ymList t).count k

/-- Zero-pad a numeral to two digits. -/
def pad2 (n : Nat) : String :=
  if n < 10 then "0" ++ toString n else toString n

/-- Zero-pad a numeral to four digits. -/
def pad4 (n : Nat) : String :=
  if n < 10 then "000" ++ toString n
  else if n < 100 then "00" ++ toString n
  else if n < 1000 then "0" ++ toString n
  else toString n

/-- `str` of a monthly period: `"YYYY-MM"` (the `astype(str)` on line 207). -/
def ymStr (p : Nat × Nat) : String :=
  pad4 p.1 ++ "-" ++ pad2 p.2

/-- `update_admission` (src/app.py:204-212): condition filter, group by
`YearMonth` with per-bucket row counts, then a line or bar chart of count
against the stringified bucket. -/
def update_admission (chart_type : String) (selected_condition : Option String)
    (t : List Row) : Fig :=
  let filtered_df := filterCondition selected_condition t
  let keys := ymKeys filtered_df
  let xs := keys.map ymStr
  let ys := keys.map (fun k => ymCount filtered_df k)
  if chart_type == "line" then Fig.line xs ys "Admission Trends Over Time"
  else Fig.bar xs ys "Admission Trends Over Time"

/-- The process-wide state visible to the callbacks: just the shared
read-only table loaded at startup. -/
structure AppState where
  table : List Row
deriving DecidableEq, Repr

/-- One callback invocation: the handler reads the shared table and returns
a figure; the state is untouched (no handler mutates `data`). -/
def invoke (handler : List Row → Fig) (s : AppState) : AppState × Fig :=
  (s, handler s.table)

/-! ### Shared scenario rows and helper lemmas -/

/-- Scenario row (spec §8): a male patient with billing 100. -/
def maleRow : Row :=
  { age := 30, gender := "Male", condition := "Diabetes", insurance := "Aetna",
    billing := some 100, admission := some ⟨2023, 1, 5⟩,
    yearMonth := some (2023, 1) }

/-- Scenario row (spec §8): a female patient with billing 200. -/
def femaleRow : Row :=
  { age := 40, gender := "Female", condition := "Asthma", insurance := "Cigna",
    billing := some 200, admission := some ⟨2023, 2, 7⟩,
    yearMonth := some (2023, 2) }

/-- A row whose billing amount and admission date both failed coercion. -/
def missingBillingRow : Row :=
  { age := 50, gender := "Male", condition := "Cancer", insurance := "Aetna",
    billing := none, admission := none, yearMonth := none }

theorem pyTruthy_some_ne {g : String} (hg : g ≠ "") : pyTruthy (some g) = true := by
  have h : g.isEmpty = false := by
    rw [Bool.eq_false_iff]
    intro h
    exact hg ((String.isEmpty_iff g).mp h)
  simp [pyTruthy, h]

theorem filterGender_some {g : String} (hg : g ≠ "") (t : List Row) :
    filterGender (some g) t = t.filter (fun r => r.gender == g) := by
  simp [filterGender, pyTruthy_some_ne hg]

theorem filterCondition_some {c : String} (hc : c ≠ "") (t : List Row) :
    filterCondition (some c) t = t.filter (fun r => r.condition == c) := by
  simp [filterCondition, pyTruthy_some_ne hc]

/-! ### Claims -/

/-- C1: for every nullable gender selection, `update_distribution` filters to
exactly the rows whose `Gender` equals the selected value (all rows when the
selection is null); an empty filtered set yields the explicit empty figure,
otherwise a 10-bin histogram of `Age` coloured by `Gender`. -/
theorem C1_update_distribution (t : List Row) (sel : Option String) :
    (sel = none → filterGender sel t = t) ∧
    (∀ g, sel = some g → g ≠ "" →
      filterGender sel t = t.filter (fun r => r.gender == g) ∧
      ∀ r, r ∈ filterGender sel t ↔ r ∈ t ∧ r.gender = g) ∧
    (filterGender sel t = [] → update_distribution sel t = Fig.empty) ∧
    (filterGender sel t ≠ [] →
      update_distribution sel t =
        Fig.histogram "Age" ((filterGender sel t).map (fun r => (r.age : Rat))) 10
          (some ((filterGender sel t).map Row.gender))
          "Age Distribution by Gender") := by
  refine ⟨?_, ?_, ?_, ?_⟩
  · rintro rfl; rfl
  · rintro g rfl hg
    refine ⟨filterGender_some hg t, ?_⟩
    intro r
    rw [filterGender_some hg t]
    simp [List.mem_filter]
  · intro h
    simp [update_distribution, h]
  · intro h
    simp [update_distribution, List.isEmpty_iff, h]

/-- C1 witness (spec §8 scenario): table {(Male, 100), (Female, 200)},
selecting `Male` restricts the histogram input to exactly the male row. -/
theorem C1_witness :
    filterGender (some "Male") [maleRow, femaleRow] = [maleRow] ∧
    update_distribution (some "Male") [maleRow, femaleRow] =
      Fig.histogram "Age" [((30 : Int) : Rat)] 10 (some ["Male"])
        "Age Distribution by Gender" := by
  have h := C1_update_distribution [maleRow, femaleRow] (some "Male")
  have h2 := (h.2.1 "Male" rfl (by decide)).1
  have hfil : filterGender (some "Male") [maleRow, femaleRow] = [maleRow] := by
    rw [h2]; decide
  refine ⟨hfil, ?_⟩
  have h4 := h.2.2.2 (by rw [hfil]; decide)
  rw [h4, hfil]
  rfl

/-- C4: `avg_billing_amount` is the arithmetic mean of `Billing Amount` over
exactly the rows where it is present, and is the `DataUnavailable` marker
`none` when every row's billing is missing. -/
theorem C4_avg_billing_amount (t : List Row) :
    (t.filterMap Row.billing ≠ [] →
      avg_billing_amount t =
        some ((t.filterMap Row.billing).sum /
          ((t.filterMap Row.billing).length : Rat))) ∧
    (t.filterMap Row.billing = [] → avg_billing_amount t = none) := by
  constructor
  · intro h
    simp only [avg_billing_amount, List.isEmpty_iff]
    rw [if_neg h]
  · intro h
    simp [avg_billing_amount, h]

/-- C4 witness: on {(100), (200)} the mean is 150; on a table whose only
row has missing billing the mean is the `DataUnavailable` marker. -/
theorem C4_witness :
    avg_billing_amount [maleRow, femaleRow] =
      some (([maleRow, femaleRow].filterMap Row.billing).sum /
        (([maleRow, femaleRow].filterMap Row.billing).length : Rat)) ∧
    avg_billing_amount [missingBillingRow] = none :=
  ⟨(C4_avg_billing_amount [maleRow, femaleRow]).1 (by decide),
    (C4_avg_billing_amount [missingBillingRow]).2 (by decide)⟩

/-- C5: the gender filter and the billing-threshold filter commute: applying
them in either order to any table yields the same row list. -/
theorem C5_filters_commute (t : List Row) (sel : Option String) (v : Rat) :
    filterBillingLe v (filterGender sel t) =
      filterGender sel (filterBillingLe v t) := by
  unfold filterGender filterBillingLe
  by_cases h : pyTruthy sel = true
  · simp only [h, if_pos]
    simp [List.filter_filter, Bool.and_comm]
  · simp only [Bool.not_eq_true] at h
    simp [h]

/-- C6: every handler is a pure function of the shared table and the control
values: an invocation leaves the application state unchanged, and a second
invocation with the same controls returns the identical figure. -/
theorem C6_handlers_stateless (s : AppState) (selg selc : Option String)
    (v : Rat) (ct : String) :
    ((invoke (update_distribution selg) s).1 = s ∧
      (invoke (update_distribution selg)
          (invoke (update_distribution selg) s).1).2 =
        (invoke (update_distribution selg) s).2) ∧
    ((invoke (update_medical_condition selg) s).1 = s ∧
      (invoke (update_medical_condition selg)
          (invoke (update_medical_condition selg) s).1).2 =
        (invoke (update_medical_condition selg) s).2) ∧
    ((invoke (update_insurance selg) s).1 = s ∧
      (invoke (update_insurance selg)
          (invoke (update_insurance selg) s).1).2 =
        (invoke (update_insurance selg) s).2) ∧
    ((invoke (update_billing selg v) s).1 = s ∧
      (invoke (update_billing selg v)
          (invoke (update_billing selg v) s).1).2 =
        (invoke (update_billing selg v) s).2) ∧
    ((invoke (update_admission ct selc) s).1 = s ∧
      (invoke (update_admission ct selc)
          (invoke (update_admission ct selc) s).1).2 =
        (invoke (update_admission ct selc) s).2) :=
  ⟨⟨rfl, rfl⟩, ⟨rfl, rfl⟩, ⟨rfl, rfl⟩, ⟨rfl, rfl⟩, ⟨rfl, rfl⟩⟩

/-- C9: a falsy selection value behaves exactly like the null unselected
state: selecting the empty string applies no filter at all, for every
handler that takes the gender or condition selection. -/
theorem C9_empty_string_is_unselected (t : List Row) (v : Rat) (ct : String) :
    filterGender (some "") t = t ∧
    filterCondition (some "") t = t ∧
    update_distribution (some "") t = update_distribution none t ∧
    update_medical_condition (some "") t = update_medical_condition none t ∧
    update_insurance (some "") t = update_insurance none t ∧
    update_billing (some "") v t = update_billing none v t ∧
    update_admission ct (some "") t = update_admission ct none t :=
  ⟨rfl, rfl, rfl, rfl, rfl, rfl, rfl⟩

/-- C10: a row whose `Billing Amount` is missing fails the threshold
comparison for every slider value, so it never enters the billing-histogram
filtered set, whatever the gender selection and table. -/
theorem C10_missing_billing_never_in_filter (v : Rat) (r : Row)
    (h : r.billing = none) :
    billingLe v r = false ∧
    ∀ (sel : Option String) (t : List Row),
      r ∉ filterBillingLe v (filterGender sel t) := by
  have hb : billingLe v r = false := by simp [billingLe, h]
  refine ⟨hb, ?_⟩
  intro sel t hmem
  have := (List.mem_filter.mp hmem).2
  rw [hb] at this
  exact absurd this (by simp)

/-- C10 witness: the concrete missing-billing row is rejected by the
threshold filter even at a very generous slider value. -/
theorem C10_witness :
    billingLe 1000000 missingBillingRow = false ∧
    missingBillingRow ∉
      filterBillingLe 1000000 (filterGender none [missingBillingRow]) :=
  ⟨(C10_missing_billing_never_in_filter 1000000 missingBillingRow rfl).1,
    (C10_missing_billing_never_in_filter 1000000 missingBillingRow rfl).2
      none [missingBillingRow]⟩

/-- C2: the billing handler's filtered row set is exactly the rows passing
the gender match (or all rows when unselected) and whose `Billing Amount` is
present and at most the slider value; the output is always a 10-bin
histogram of `Billing Amount` over that set. -/
theorem C2_update_billing (t : List Row) (sel : Option String) (v : Rat) :
    (∀ r : Row, billingLe v r = true ↔ ∃ b, r.billing = some b ∧ b ≤ v) ∧
    (sel = none →
      ∀ r, r ∈ filterBillingLe v (filterGender sel t) ↔
        r ∈ t ∧ billingLe v r = true) ∧
    (∀ g, sel = some g → g ≠ "" →
      ∀ r, r ∈ filterBillingLe v (filterGender sel t) ↔
        r ∈ t ∧ r.gender = g ∧ billingLe v r = true) ∧
    update_billing sel v t =
      Fig.histogram "Billing Amount"
        ((filterBillingLe v (filterGender sel t)).filterMap Row.billing) 10
        none "Billing Amount Distribution" := by
  refine ⟨?_, ?_, ?_, rfl⟩
  · intro r
    cases hb : r.billing with
    | none => simp [billingLe, hb]
    | some b => simp [billingLe, hb]
  · rintro rfl r
    simp [filterGender, filterBillingLe, pyTruthy, List.mem_filter]
  · rintro g rfl hg r
    rw [filterGender_some hg]
    simp only [filterBillingLe, List.mem_filter, beq_iff_eq]
    tauto

/-- C2 witness: with table {(Male, 100), (Female, 200)}, gender `Male` and
slider 150, the male row is in the filtered set and the output is the
10-bin billing histogram over the filtered set. -/
theorem C2_witness :
    maleRow ∈ filterBillingLe 150 (filterGender (some "Male") [maleRow, femaleRow]) ∧
    update_billing (some "Male") 150 [maleRow, femaleRow] =
      Fig.histogram "Billing Amount"
        ((filterBillingLe 150
          (filterGender (some "Male") [maleRow, femaleRow])).filterMap Row.billing)
        10 none "Billing Amount Distribution" := by
  have h := C2_update_billing [maleRow, femaleRow] (some "Male") 150
  refine ⟨?_, h.2.2.2⟩
  exact (h.2.2.1 "Male" rfl (by decide) maleRow).mpr
    ⟨by simp, by decide, by decide⟩

/-- C3 counterexample: with the one-row table {(Male, 100)} and slider 50
(strictly below the table minimum 100), the filtered set is empty, yet
`update_billing` does not return the explicit empty-result figure used by
the age handler: it returns an ordinary histogram built from zero rows. -/
theorem C3_counterexample :
    (∀ b ∈ [maleRow].filterMap Row.billing, (50 : Rat) < b) ∧
    filterBillingLe 50 (filterGender none [maleRow]) = [] ∧
    update_billing none 50 [maleRow] ≠ Fig.empty ∧
    update_billing none 50 [maleRow] =
      Fig.histogram "Billing Amount" [] 10 none "Billing Amount Distribution" :=
  ⟨by decide, by decide, by decide, by decide⟩

/-- C3 (amended): for every slider value strictly below every present
`Billing Amount`, the billing handler's filtered set is empty and the
handler returns the ordinary 10-bin `Billing Amount` histogram over zero
rows — it does not raise, but it also does not return the explicit
empty-result state. -/
theorem C3_empty_threshold (t : List Row) (sel : Option String) (v : Rat)
    (hmin : ∀ b ∈ t.filterMap Row.billing, v < b) :
    filterBillingLe v (filterGender sel t) = [] ∧
    update_billing sel v t =
      Fig.histogram "Billing Amount" [] 10 none
        "Billing Amount Distribution" := by
  have hsub : ∀ r ∈ filterGender sel t, r ∈ t := by
    intro r hr
    unfold filterGender at hr
    split at hr
    · exact List.mem_of_mem_filter hr
    · exact hr
  have hempty : filterBillingLe v (filterGender sel t) = [] := by
    rw [filterBillingLe, List.filter_eq_nil_iff]
    intro r hr hle
    obtain ⟨b, hb, hbv⟩ : ∃ b, r.billing = some b ∧ b ≤ v := by
      cases hbb : r.billing with
      | none => simp [billingLe, hbb] at hle
      | some b => exact ⟨b, rfl, by simpa [billingLe, hbb] using hle⟩
    have hmem : b ∈ t.filterMap Row.billing :=
      List.mem_filterMap.mpr ⟨r, hsub r hr, hb⟩
    exact absurd hbv (not_le.mpr (hmin b hmem))
  refine ⟨hempty, ?_⟩
  have hrfl : update_billing sel v t =
      Fig.histogram "Billing Amount"
        ((filterBillingLe v (filterGender sel t)).filterMap Row.billing) 10
        none "Billing Amount Distribution" := rfl
  rw [hrfl, hempty]
  rfl

/-- C3 (amended) witness: table {(Male, 100), (Female, 200)}, gender
`Male`, slider 50: empty filtered set, zero-row histogram returned. -/
theorem C3_witness :
    filterBillingLe 50 (filterGender (some "Male") [maleRow, femaleRow]) = [] ∧
    update_billing (some "Male") 50 [maleRow, femaleRow] =
      Fig.histogram "Billing Amount" [] 10 none "Billing Amount Distribution" :=
  C3_empty_threshold [maleRow, femaleRow] (some "Male") 50 (by decide)

/-- Per-bucket group size: the number of present `YearMonth` values equal to
`k` is the number of rows whose `YearMonth` is `k`. -/
theorem count_ymList_eq_length_filter (f : List Row) (k : Nat × Nat) :
    (f.filterMap Row.yearMonth).count k =
      (f.filter (fun r => r.yearMonth == some k)).length := by
  induction f with
  | nil => rfl
  | cons r rs ih =>
    cases h : r.yearMonth with
    | none => simp [List.filterMap_cons, h, List.filter_cons, ih]
    | some p =>
      by_cases hpk : p = k
      · simp [List.filterMap_cons, h, List.filter_cons, hpk, List.count_cons, ih]
      · simp [List.filterMap_cons, h, List.filter_cons, hpk, List.count_cons, ih]

/-- C7: the admission-trends handler filters by `Medical Condition` (all
rows when unselected), produces one bucket per distinct present `YearMonth`
value, counts the rows of each bucket, orders the buckets chronologically,
and renders the requested line or bar chart of count against bucket. -/
theorem C7_update_admission (t : List Row) (ct : String) (sel : Option String) :
    (sel = none → filterCondition sel t = t) ∧
    (∀ c, sel = some c → c ≠ "" →
      filterCondition sel t = t.filter (fun r => r.condition == c)) ∧
    List.Sorted ymr (ymKeys (filterCondition sel t)) ∧
    (ymKeys (filterCondition sel t)).Nodup ∧
    (∀ k, k ∈ ymKeys (filterCondition sel t) ↔
      k ∈ ymList (filterCondition sel t)) ∧
    (∀ k, ymCount (filterCondition sel t) k =
      ((filterCondition sel t).filter (fun r => r.yearMonth == some k)).length) ∧
    update_admission ct sel t =
      (if ct == "line" then
        Fig.line ((ymKeys (filterCondition sel t)).map ymStr)
          ((ymKeys (filterCondition sel t)).map
            (fun k => ymCount (filterCondition sel t) k))
          "Admission Trends Over Time"
      else
        Fig.bar ((ymKeys (filterCondition sel t)).map ymStr)
          ((ymKeys (filterCondition sel t)).map
            (fun k => ymCount (filterCondition sel t) k))
          "Admission Trends Over Time") := by
  refine ⟨?_, ?_, ?_, ?_, ?_, ?_, rfl⟩
  · rintro rfl; rfl
  · rintro c rfl hc
    exact filterCondition_some hc t
  · exact List.sorted_insertionSort ymr _
  · exact ((List.perm_insertionSort ymr _).nodup_iff).mpr
      (List.nodup_dedup _)
  · intro k
    simp [ymKeys, List.mem_dedup]
  · intro k
    exact count_ymList_eq_length_filter _ k

/-- C7 witness: with no condition selected, the table {(Male, 2023-01),
(Female, 2023-02)} aggregates across all rows into two chronological
buckets of one row each. -/
theorem C7_witness :
    filterCondition none [maleRow, femaleRow] = [maleRow, femaleRow] ∧
    filterCondition (some "Asthma") [maleRow, femaleRow] =
      [maleRow, femaleRow].filter (fun r => r.condition == "Asthma") ∧
    update_admission "line" none [maleRow, femaleRow] =
      Fig.line ["2023-01", "2023-02"] [1, 1] "Admission Trends Over Time" := by
  have h := C7_update_admission [maleRow, femaleRow] "line" none
  have h2 := C7_update_admission [maleRow, femaleRow] "line" (some "Asthma")
  refine ⟨h.1 rfl, h2.2.1 "Asthma" rfl (by decide), ?_⟩
  decide

/-- C8: the coercions of `load_data` never lose or reject a row (one output
row per input row), an unparseable value becomes the explicit missing
marker delivered by the coercion, `YearMonth` is derived from the coerced
date with a missing date giving a missing `YearMonth`, and rows with
missing values are excluded from the mean, the billing histogram and the
trend aggregation rather than causing an error. -/
theorem C8_coercion_and_missing (parseNum : String → Option Rat)
    (parseDate : String → Option Date) (raw : List RawRow) :
    (load_data parseNum parseDate raw).length = raw.length ∧
    (∀ row ∈ load_data parseNum parseDate raw,
      row.yearMonth = row.admission.map toYearMonth ∧
      (row.admission = none → row.yearMonth = none)) ∧
    (∀ rr ∈ raw, ∃ row ∈ load_data parseNum parseDate raw,
      row.billing = parseNum rr.billingText ∧
      row.admission = parseDate rr.dateText ∧
      row.yearMonth = (parseDate rr.dateText).map toYearMonth) ∧
    (∀ (r : Row) (t : List Row), r.billing = none →
      avg_billing_amount (r :: t) = avg_billing_amount t) ∧
    (∀ (r : Row) (t : List Row) (sel : Option String) (v : Rat),
      r.billing = none →
      update_billing sel v (r :: t) = update_billing sel v t) ∧
    (∀ (r : Row) (t : List Row) (ct : String) (sel : Option String),
      r.yearMonth = none →
      update_admission ct sel (r :: t) = update_admission ct sel t) := by
  refine ⟨by simp [load_data], ?_, ?_, ?_, ?_, ?_⟩
  · intro row hrow
    simp only [load_data, List.mem_map] at hrow
    obtain ⟨rr, _, rfl⟩ := hrow
    refine ⟨rfl, ?_⟩
    intro hnone
    simp only at hnone
    simp [hnone]
  · intro rr hrr
    exact ⟨_, List.mem_map_of_mem _ hrr, rfl, rfl, rfl⟩
  · intro r t h
    simp [avg_billing_amount, List.filterMap_cons, h]
  · intro r t sel v h
    have hb : billingLe v r = false := by simp [billingLe, h]
    unfold update_billing filterGender filterBillingLe
    split
    · rw [List.filter_cons]
      split
      · simp [List.filter_cons, hb]
      · rfl
    · simp [List.filter_cons, hb]
  · intro r t ct sel h
    have expand : ∀ t' : List Row, update_admission ct sel t' =
        (if ct == "line" then
          Fig.line ((ymKeys (filterCondition sel t')).map ymStr)
            ((ymKeys (filterCondition sel t')).map
              (fun k => ymCount (filterCondition sel t') k))
            "Admission Trends Over Time"
        else
          Fig.bar ((ymKeys (filterCondition sel t')).map ymStr)
            ((ymKeys (filterCondition sel t')).map
              (fun k => ymCount (filterCondition sel t') k))
            "Admission Trends Over Time") := fun t' => rfl
    rw [expand, expand]
    have hcons : filterCondition sel (r :: t) = filterCondition sel t ∨
        filterCondition sel (r :: t) = r :: filterCondition sel t := by
      unfold filterCondition
      split
      · rw [List.filter_cons]
        split
        · right; rfl
        · left; rfl
      · right; rfl
    rcases hcons with hc | hc <;> rw [hc]
    have hym : ymList (r :: filterCondition sel t) =
        ymList (filterCondition sel t) := by
      simp [ymList, List.filterMap_cons, h]
    simp [ymKeys, ymCount, hym]

/-- A `to_numeric`-style coercion for the witness: parses only `"100"`. -/
def demoParseNum : String → Option Rat :=
  fun s => if s = "100" then some 100 else none

/-- A `to_datetime`-style coercion for the witness: parses only one date. -/
def demoParseDate : String → Option Date :=
  fun s => if s = "2023-01-05" then some ⟨2023, 1, 5⟩ else none

/-- A raw table for the witness: one clean row, one row whose billing and
date text are both unparseable. -/
def demoRaw : List RawRow :=
  [⟨30, "Male", "Diabetes", "Aetna", "100", "2023-01-05"⟩,
   ⟨40, "Female", "Asthma", "Cigna", "not-a-number", "bad-date"⟩]

/-- C8 witness: the demo load keeps both rows, and a row with missing
billing (and missing `YearMonth`) changes neither the mean, nor the billing
histogram, nor the admission trends. -/
theorem C8_witness :
    (load_data demoParseNum demoParseDate demoRaw).length = demoRaw.length ∧
    avg_billing_amount (missingBillingRow :: [maleRow]) =
      avg_billing_amount [maleRow] ∧
    update_billing none 150 (missingBillingRow :: [maleRow]) =
      update_billing none 150 [maleRow] ∧
    update_admission "line" none (missingBillingRow :: [maleRow]) =
      update_admission "line" none [maleRow] :=
  ⟨(C8_coercion_and_missing demoParseNum demoParseDate demoRaw).1,
    (C8_coercion_and_missing demoParseNum demoParseDate demoRaw).2.2.2.1
      missingBillingRow [maleRow] rfl,
    (C8_coercion_and_missing demoParseNum demoParseDate demoRaw).2.2.2.2.1
      missingBillingRow [maleRow] none 150 rfl,
    (C8_coercion_and_missing demoParseNum demoParseDate demoRaw).2.2.2.2.2
      missingBillingRow [maleRow] "line" none rfl⟩

end HealthcareDashboard
